import Mathlib

/-!
Shallow embedding of the asynchronous face-swap job controller of `src/bot.py`:
the status poller `wait_for_completion`, the conversation handlers
`received_source_image`, `received_target_image_and_swap` and `cancel_command`,
and the result-extraction logic, together with proofs of the specified
properties.

Modelling conventions:
* time is measured in whole seconds (`Nat`); `asyncio.sleep(5)` advances the
  clock by exactly 5, and each status read is allowed an arbitrary extra
  duration `dur k ≥ 0` (all other per-iteration overhead is absorbed into it);
* remote calls are modelled by their observable results: the result of the
  `k`-th status read is `reads k : Option Payload` (`none` for a read that
  yields no payload), uploads and job submission by `Option String` values;
* the Telegram transport (message sending/editing) is pure output and is
  recorded in the returned values instead of performed.
-/

namespace Bot

/-- Models Python's `str.upper()` (character-wise uppercasing; the statuses
involved are ASCII). -/
def pyUpper (s : String) : String := ⟨s.data.map Char.toUpper⟩

/-- Models Python's `str.startswith(pat)`. -/
def pyStartsWith (s pat : String) : Bool := pat.data.isPrefixOf s.data

/-- Models Python's slicing `s[:n]`. -/
def pyTake (s : String) (n : Nat) : String := ⟨s.data.take n⟩

/-- JSON-like values appearing in remote API payloads (the `dict`s decoded by
`response.json()` in `src/bot.py`). Only the shapes the bot inspects are
needed: strings, numbers and string-keyed objects. -/
inductive JValue where
  | s (str : String)
  | num (n : Int)
  | obj (fields : List (String × JValue))

/-- Python truthiness of a decoded JSON value (`if output:` in the handler):
the empty string, zero and the empty dict are falsy. -/
def pyTruthy : JValue → Bool
  | .s str => !str.isEmpty
  | .num n => n != 0
  | .obj fields => !fields.isEmpty

mutual

/-- Models `str(output)` as used in the diagnostic message of
`received_target_image_and_swap` (Python's `repr` quotes with single quotes;
the exact quoting is immaterial, the property modelled downstream is the
200-character truncation of the rendered dump). -/
def renderJ : JValue → String
  | .s str => "\x22" ++ str ++ "\x22"
  | .num n => toString n
  | .obj fields => "\x7b" ++ renderFields fields ++ "\x7d"

/-- Renders the comma-separated field list of an object for `renderJ`. -/
def renderFields : List (String × JValue) → String
  | [] => ""
  | [(k, v)] => "\x22" ++ k ++ "\x22: " ++ renderJ v
  | (k, v) :: f :: rest => "\x22" ++ k ++ "\x22: " ++ renderJ v ++ ", " ++ renderFields (f :: rest)

end

/-- A decoded JSON object payload, as returned by `check_faceswap_status`
(`response.json()`): an association list of fields. The Python `dict` has
unique keys; lookup takes the first binding. -/
abbrev Payload := List (String × JValue)

/-- Models `status_result.get('status', '')` followed by `.upper()`s operand:
the raw status string. `none` represents a payload whose `status` field holds
a non-string value, on which Python's `.upper()` would raise
(`AttributeError`); a missing field yields the default `''`. -/
def statusString (p : Payload) : Option String :=
  match List.lookup "status" p with
  | none => some ""
  | some (.s str) => some str
  | some _ => none

/-- The terminal-failure status bucket of `wait_for_completion`
(`['FAILED', 'CANCELLED', 'ERROR']` in `src/bot.py` line 219). -/
def failureStatuses : List String := ["FAILED", "CANCELLED", "ERROR"]

/-- The recognised in-flight status bucket of `wait_for_completion`
(`['IN_QUEUE', 'IN_PROGRESS', 'PROCESSING', 'PENDING']`, line 222). An
unrecognised status takes the final `else` branch, which behaves identically
apart from the logged warning. -/
def inflightStatuses : List String := ["IN_QUEUE", "IN_PROGRESS", "PROCESSING", "PENDING"]

/-- One progress-callback invocation (`update_callback(...)` in
`wait_for_completion`, lines 207-214): the check counter, the elapsed
minutes/seconds (`int(elapsed_time // 60)`, `int(elapsed_time % 60)`) and the
job-id fragment `job_id[:8]` interpolated into the message. The message text
also interpolates the current status string; the recorded fields are the ones
the specification speaks about. -/
structure ProgressFire where
  check : Nat
  minutes : Nat
  seconds : Nat
  jobIdShort : String
deriving DecidableEq, Repr

/-- Which exit the poll loop took. The source function returns `dict | None`;
the exits are distinguished in the source only by their distinct log lines
(`timed out` line 195, `Failed to get status` line 201, `completed` line 217,
`failed with status` line 220). `raised` marks the branch where `.upper()`
would raise on a non-string status field; `fuelOut` is an artefact of the
fuel-based embedding, proved unreachable (`pollSteps_no_fuelOut`). -/
inductive PollExit where
  | completed
  | jobFailed
  | readFailed
  | timedOut
  | raised
  | fuelOut
deriving DecidableEq, Repr

/-- Observable behaviour of one `wait_for_completion` run: the exit taken,
the Python return value (`status_result` on `COMPLETED`, `None` otherwise),
the number of status calls issued (invocations of `check_faceswap_status`),
and the chronological list of progress-callback firings. -/
structure PollTrace where
  exit : PollExit
  retVal : Option Payload
  statusCalls : Nat
  progress : List ProgressFire

/-- The body of `wait_for_completion`'s `while True:` loop (lines 189-226),
one constructor application per iteration. State threaded through:
`checkCount` (`check_count`), `elapsed` (`elapsed_time`, in seconds), `calls`
(status calls issued so far) and `fires` (progress firings, newest first).
Per iteration, faithful to the source order: increment the counter, compute
elapsed, return `None` if `elapsed_time > max_wait_time`, issue the status
read (`if not status_result: return None` — taken both for `None` and for an
empty dict), uppercase the status, fire the progress callback when a callback
was supplied and `check_count % 5 == 0` (before the terminal-status tests),
then branch on the status buckets; the in-flight and unknown branches both
`await asyncio.sleep(5)` and loop. The `k`-th status read additionally takes
`dur k` seconds. `fuel` bounds the recursion and is chosen large enough to be
unreachable. -/
def pollSteps (jobId : String) (reads : Nat → Option Payload) (dur : Nat → Nat)
    (hasCb : Bool) (maxWait : Nat) :
    Nat → Nat → Nat → Nat → List ProgressFire → PollTrace
  | 0, _, _, calls, fires => ⟨.fuelOut, none, calls, fires.reverse⟩
  | fuel + 1, checkCount, elapsed, calls, fires =>
    let k := checkCount + 1
    if elapsed > maxWait then
      ⟨.timedOut, none, calls, fires.reverse⟩
    else
      match reads k with
      | none => ⟨.readFailed, none, calls + 1, fires.reverse⟩
      | some payload =>
        if payload.isEmpty then
          ⟨.readFailed, none, calls + 1, fires.reverse⟩
        else
          match statusString payload with
          | none => ⟨.raised, none, calls + 1, fires.reverse⟩
          | some raw =>
            let status := pyUpper raw
            let fires' := if hasCb && k % 5 == 0 then
                ⟨k, elapsed / 60, elapsed % 60, pyTake jobId 8⟩ :: fires
              else fires
            if status = "COMPLETED" then
              ⟨.completed, some payload, calls + 1, fires'.reverse⟩
            else if status ∈ failureStatuses then
              ⟨.jobFailed, none, calls + 1, fires'.reverse⟩
            else if status ∈ inflightStatuses then
              pollSteps jobId reads dur hasCb maxWait fuel k (elapsed + dur k + 5) (calls + 1) fires'
            else
              pollSteps jobId reads dur hasCb maxWait fuel k (elapsed + dur k + 5) (calls + 1) fires'

/-- `wait_for_completion(job_id, update_callback, max_wait_time)` (lines
184-226): runs the loop from `check_count = 0`, `elapsed = 0`. The fuel
`maxWait / 5 + 2` strictly exceeds the maximal number of iterations (each
non-final iteration advances `elapsed` by at least 5 and the loop stops as
soon as `elapsed > maxWait`), proved in `pollSteps_no_fuelOut`. -/
def wait_for_completion (jobId : String) (reads : Nat → Option Payload)
    (dur : Nat → Nat) (hasCb : Bool) (maxWait : Nat) : PollTrace :=
  pollSteps jobId reads dur hasCb maxWait (maxWait / 5 + 2) 0 0 0 []

/-- A status read whose payload lands in the in-flight bucket: a non-empty
dict whose (string) status uppercases to something that is neither
`COMPLETED` nor a terminal-failure status. -/
def InFlightRead (r : Option Payload) : Prop :=
  ∃ p str, r = some p ∧ p.isEmpty = false ∧ statusString p = some str ∧
    pyUpper str ≠ "COMPLETED" ∧ pyUpper str ∉ failureStatuses

/-- The progress firings expected from checks `lo, lo+1, ..., lo+len-1` of a
run with instantaneous status reads (elapsed at check `k` is `5*(k-1)`):
one firing per check number divisible by 5, provided a callback was given. -/
def expectedFires (jobId : String) (hasCb : Bool) (lo len : Nat) : List ProgressFire :=
  ((List.range' lo len).filter (fun k => hasCb && k % 5 == 0)).map
    (fun k => ⟨k, (5 * (k - 1)) / 60, (5 * (k - 1)) % 60, pyTake jobId 8⟩)

/-- The conversation-state value a handler returns to the `ConversationHandler`:
`WAITING_FOR_SOURCE_IMAGE` (0), `WAITING_FOR_TARGET_IMAGE` (1) or
`ConversationHandler.END`. -/
inductive ConvResult where
  | waitingSource
  | waitingTarget
  | ended
deriving DecidableEq, Repr

/-- `context.user_data`, restricted to the single key the bot uses
(`'source_image_url'`). `user_data.clear()` resets it to `UserData.empty`. -/
structure UserData where
  source_image_url : Option String
deriving DecidableEq, Repr

/-- The cleared `user_data` dict. -/
def UserData.empty : UserData := ⟨none⟩

/-- An event delivered to `received_source_image` while the conversation is
in `WAITING_FOR_SOURCE_IMAGE`: a photo whose ImgBB upload yields
`uploadRes` (`None` on failure), or any exception while processing it
(caught by the handler's `except`, which re-prompts). -/
inductive SourceEvent where
  | photo (uploadRes : Option String)
  | raises

/-- `received_source_image` (lines 254-287): on upload failure the handler
re-prompts and stays in `WAITING_FOR_SOURCE_IMAGE` without touching
`user_data`; on success it stores `source_image_url` and advances to
`WAITING_FOR_TARGET_IMAGE`; the `except` path also returns
`WAITING_FOR_SOURCE_IMAGE`. -/
def received_source_image (ud : UserData) : SourceEvent → UserData × ConvResult
  | .photo none => (ud, .waitingSource)
  | .photo (some url) => ({ source_image_url := some url }, .waitingTarget)
  | .raises => (ud, .waitingSource)

/-- Feeds a sequence of source-image events through `received_source_image`,
starting in `WAITING_FOR_SOURCE_IMAGE`, returning the final `user_data` and
conversation state. -/
def runSourceEvents (ud : UserData) (events : List SourceEvent) : UserData × ConvResult :=
  events.foldl (fun st ev => received_source_image st.1 ev) (ud, .waitingSource)

/-- The priority-ordered key list searched in a dict-shaped `output`
(`['image_url', 'url', 'result_url', 'output_url']`, line 357). -/
def knownResultKeys : List String := ["image_url", "url", "result_url", "output_url"]

/-- `for key in [...]: if key in output: result_image_url = output[key]; break`
(lines 357-360): the value of the first present key in priority order. -/
def firstKnownKey (fields : List (String × JValue)) : Option JValue :=
  (knownResultKeys.filterMap (fun k => List.lookup k fields)).head?

/-- The `result_image_url` computation of `received_target_image_and_swap`
(lines 349-363): a string `output` is used iff it `startswith('http')`;
a dict `output` is searched via `firstKnownKey`; any other shape yields
nothing. -/
def extract_result_url (output : JValue) : Option JValue :=
  match output with
  | .s str => if pyStartsWith str "http" then some (.s str) else none
  | .obj fields => firstKnownKey fields
  | _ => none

/-- How the handler presents the poll result to the user (lines 347-399). -/
inductive SwapDisplay where
  | resolved (url : JValue)
  | malformed (dump : String)
  | failedOrTimedOut

/-- `true` iff the display is the `malformed` diagnostic. -/
def SwapDisplay.isMalformed : SwapDisplay → Bool
  | .malformed _ => true
  | _ => false

/-- Classification of `wait_for_completion`'s return value by
`received_target_image_and_swap` (lines 347-399): `if result and
result.get('output'):` guards everything (so a falsy result dict or a falsy
or absent `output` field falls to the single "failed or timed out" message,
line 392); a truthy `output` goes through `extract_result_url`; `if
result_image_url:` (line 365, a truthiness test) selects between the download
attempt (`resolved`, which the source follows with a fetch whose own failure
surfaces the URL to the user) and the diagnostic `"Raw output:
{str(output)[:200]}..."` (line 389, `malformed` with the truncated dump). -/
def received_result_display (result : Option Payload) : SwapDisplay :=
  match result with
  | none => .failedOrTimedOut
  | some p =>
    if p.isEmpty then .failedOrTimedOut
    else
      match List.lookup "output" p with
      | none => .failedOrTimedOut
      | some output =>
        if !pyTruthy output then .failedOrTimedOut
        else
          match extract_result_url output with
          | some u =>
            if pyTruthy u then .resolved u
            else .malformed (pyTake (renderJ output) 200)
          | none => .malformed (pyTake (renderJ output) 200)

/-- The user-visible message class produced by
`received_target_image_and_swap`. -/
inductive SwapMsg where
  | uploadTargetFailed
  | submitFailed
  | unexpectedError
  | display (d : SwapDisplay)

/-- `received_target_image_and_swap` (lines 290-424), with the remote calls
replaced by their results: `uploadRes` is the ImgBB upload of the target
image, `submitRes` the `submit_faceswap_job` result, `pollRes` the
`wait_for_completion` return value (reached only on the successful path).
Faithful control flow: upload failure returns `WAITING_FOR_TARGET_IMAGE`
(line 306) — a `return` inside `try` still runs the `finally`, which clears
`user_data` (line 422) on every path; with the upload successful the handler
then evaluates `context.user_data['source_image_url']` (line 311), which
raises `KeyError` when absent — caught by the `except` (line 401), ending the
conversation; submit failure ends the conversation (line 329); otherwise the
poll result is classified and the conversation ends (line 424). -/
def received_target_image_and_swap (ud : UserData) (uploadRes : Option String)
    (submitRes : Option String) (pollRes : Option Payload) :
    UserData × ConvResult × SwapMsg :=
  match uploadRes with
  | none => (UserData.empty, .waitingTarget, .uploadTargetFailed)
  | some _targetUrl =>
    match ud.source_image_url with
    | none => (UserData.empty, .ended, .unexpectedError)
    | some _sourceUrl =>
      match submitRes with
      | none => (UserData.empty, .ended, .submitFailed)
      | some _jobId =>
        (UserData.empty, .ended, .display (received_result_display pollRes))

/-- `cancel_command` (lines 427-433): clears `user_data` and ends the
conversation. It holds no reference to any running `wait_for_completion`
loop and writes nothing that loop reads. -/
def cancel_command (_ud : UserData) : UserData × ConvResult :=
  (UserData.empty, .ended)

/-- Modelled from the spec: the specification's cancellation design (§5) —
"cancellation invalidate[s] the job handle the Poller is bound to, checked at
the top of each loop iteration" — which has no counterpart in
`src/bot.py`'s `wait_for_completion`. `jobValid k` says whether the job
handle is still valid when check `k` would be issued; once invalidated, no
further status call is made. Returns the number of status calls issued.
Introduced solely to compare the claimed behaviour with the code's. -/
def specPollStatusCalls (jobValid : Nat → Bool) (reads : Nat → Option Payload)
    (maxWait : Nat) : Nat → Nat → Nat → Nat → Nat
  | 0, _, _, calls => calls
  | fuel + 1, checkCount, elapsed, calls =>
    let k := checkCount + 1
    if !jobValid k then calls
    else if elapsed > maxWait then calls
    else
      match reads k with
      | none => calls + 1
      | some payload =>
        if payload.isEmpty then calls + 1
        else
          match statusString payload with
          | none => calls + 1
          | some raw =>
            let status := pyUpper raw
            if status = "COMPLETED" then calls + 1
            else if status ∈ failureStatuses then calls + 1
            else specPollStatusCalls jobValid reads maxWait fuel k (elapsed + 5) (calls + 1)

/-- A status-read stream that always reports `IN_PROGRESS`. -/
def alwaysInProgress : Nat → Option Payload :=
  fun _ => some [("status", JValue.s "IN_PROGRESS")]

/-- A status-read stream that immediately reports `FAILED`. -/
def alwaysFailed : Nat → Option Payload :=
  fun _ => some [("status", JValue.s "FAILED")]

/-- Instantaneous status reads. -/
def zeroDur : Nat → Nat := fun _ => 0

/-- Status reported at check `k` in the fifth-check-completes scenario:
checks 1-4 report `IN_PROGRESS`, check 5 reports `COMPLETED` (a terminal
status on a multiple-of-5 check). -/
def fifthStatus (k : Nat) : String := if k = 5 then "COMPLETED" else "IN_PROGRESS"

/-- Payload at check `k` in the fifth-check-completes scenario. -/
def fifthCompleted (k : Nat) : Payload :=
  [("status", JValue.s (fifthStatus k)), ("output", JValue.s "https://cdn/result.png")]

/-- `fifthCompleted` as a read stream. -/
def fifthCompletedReads (k : Nat) : Option Payload := some (fifthCompleted k)

/-- Status reported at check `k` in the seventh-check-completes scenario:
checks 1-6 report `IN_PROGRESS`, check 7 reports `COMPLETED`. -/
def seventhStatus (k : Nat) : String := if k = 7 then "COMPLETED" else "IN_PROGRESS"

/-- Payload at check `k` in the seventh-check-completes scenario. -/
def seventhCompleted (k : Nat) : Payload :=
  [("status", JValue.s (seventhStatus k)), ("output", JValue.s "https://cdn/result.png")]

/-- `seventhCompleted` as a read stream. -/
def seventhCompletedReads (k : Nat) : Option Payload := some (seventhCompleted k)

/-- Status reported at check `k` in the unknown-status scenario: checks 1-2
report the unrecognised status `WEIRD_STATE`, check 3 reports lowercase
`completed` (exercising the case-insensitive normalisation). -/
def weirdStatus (k : Nat) : String := if k = 3 then "completed" else "WEIRD_STATE"

/-- Payload at check `k` in the unknown-status scenario. -/
def weirdPayload (k : Nat) : Payload :=
  [("status", JValue.s (weirdStatus k)), ("output", JValue.s "https://cdn/result.png")]

/-- `weirdPayload` as a read stream. -/
def weirdReads (k : Nat) : Option Payload := some (weirdPayload k)

/-- Scenario for the failed-read claim: checks 1-2 report `IN_PROGRESS`,
check 3 yields no payload. -/
def readsFailAt3 (k : Nat) : Option Payload :=
  if k = 3 then none else some [("status", JValue.s "IN_PROGRESS")]

/-! ## General lemmas about the poll loop -/

/-- The fuel supplied by `wait_for_completion` cannot run out: as long as
`5 * fuel + elapsed` exceeds `maxWait + 5`, the loop returns through one of
its genuine exits. -/
theorem pollSteps_no_fuelOut (jobId : String) (reads : Nat → Option Payload)
    (dur : Nat → Nat) (hasCb : Bool) (maxWait : Nat) :
    ∀ fuel c e calls fires, 1 ≤ fuel → maxWait + 5 < 5 * fuel + e →
      (pollSteps jobId reads dur hasCb maxWait fuel c e calls fires).exit ≠ .fuelOut := by
  intro fuel
  induction fuel with
  | zero => intro c e calls fires h1 _; omega
  | succ f ih =>
    intro c e calls fires _ h2
    by_cases hgt : e > maxWait
    · simp [pollSteps, hgt]
    · simp only [pollSteps, if_neg hgt]
      cases hr : reads (c + 1) with
      | none => simp [hr]
      | some payload =>
        simp only [hr]
        by_cases hemp : payload.isEmpty
        · simp [hemp]
        · simp only [hemp, Bool.false_eq_true, if_false]
          cases hs : statusString payload with
          | none => simp [hs]
          | some raw =>
            simp only [hs]
            by_cases hc : pyUpper raw = "COMPLETED"
            · simp [hc]
            · rw [if_neg hc]
              by_cases hf : pyUpper raw ∈ failureStatuses
              · simp [hf]
              · rw [if_neg hf, ite_self]
                exact ih _ _ _ _ (by omega) (by omega)

/-- The loop's return value is a payload exactly when it exited through the
`COMPLETED` branch; every other exit returns `None`. -/
theorem pollSteps_retVal_iff (jobId : String) (reads : Nat → Option Payload)
    (dur : Nat → Nat) (hasCb : Bool) (maxWait : Nat) :
    ∀ fuel c e calls fires,
      ((pollSteps jobId reads dur hasCb maxWait fuel c e calls fires).exit = .completed ↔
        ((pollSteps jobId reads dur hasCb maxWait fuel c e calls fires).retVal).isSome = true) := by
  intro fuel
  induction fuel with
  | zero => intro c e calls fires; simp [pollSteps]
  | succ f ih =>
    intro c e calls fires
    by_cases hgt : e > maxWait
    · simp [pollSteps, hgt]
    · simp only [pollSteps, if_neg hgt]
      cases hr : reads (c + 1) with
      | none => simp [hr]
      | some payload =>
        simp only [hr]
        by_cases hemp : payload.isEmpty
        · simp [hemp]
        · simp only [hemp, Bool.false_eq_true, if_false]
          cases hs : statusString payload with
          | none => simp [hs]
          | some raw =>
            simp only [hs]
            by_cases hc : pyUpper raw = "COMPLETED"
            · simp [hc]
            · rw [if_neg hc]
              by_cases hf : pyUpper raw ∈ failureStatuses
              · simp [hf]
              · rw [if_neg hf, ite_self]
                exact ih _ _ _ _

/-- If every status read lands in the in-flight bucket, the loop times out
(exit `timedOut`, returning `None`), and the number of status calls issued
from a state with elapsed time `e` and `calls` calls already made is bounded
by `calls + (maxWait + 5 - e)/5`: each pre-deadline iteration issues one call
and advances the clock by at least 5, and the iteration that detects
`elapsed > maxWait` issues none. -/
theorem pollSteps_inflight_timeout (jobId : String) (reads : Nat → Option Payload)
    (dur : Nat → Nat) (hasCb : Bool) (maxWait : Nat)
    (hin : ∀ k, 1 ≤ k → InFlightRead (reads k)) :
    ∀ fuel c e calls fires, 1 ≤ fuel → maxWait + 5 < 5 * fuel + e →
      (pollSteps jobId reads dur hasCb maxWait fuel c e calls fires).exit = .timedOut ∧
      (pollSteps jobId reads dur hasCb maxWait fuel c e calls fires).retVal = none ∧
      5 * (pollSteps jobId reads dur hasCb maxWait fuel c e calls fires).statusCalls ≤
        5 * calls + (maxWait + 5 - e) := by
  intro fuel
  induction fuel with
  | zero => intro c e calls fires h1 _; omega
  | succ f ih =>
    intro c e calls fires _ h2
    by_cases hgt : e > maxWait
    · simp only [pollSteps, if_pos hgt]
      exact ⟨trivial, trivial, by omega⟩
    · simp only [pollSteps, if_neg hgt]
      obtain ⟨payload, raw, hr, hemp, hs, hc, hf⟩ := hin (c + 1) (by omega)
      simp only [hr, hemp, Bool.false_eq_true, if_false, hs]
      rw [if_neg hc, if_neg hf, ite_self]
      have hrec := ih (c + 1) (e + dur (c + 1) + 5) (calls + 1)
        (if (hasCb && (c + 1) % 5 == 0) = true then
            ⟨c + 1, e / 60, e % 60, pyTake jobId 8⟩ :: fires
          else fires)
        (by omega) (by omega)
      exact ⟨hrec.1, hrec.2.1, by omega⟩

/-- Splitting off the first check of an `expectedFires` window. -/
theorem expectedFires_succ (jobId : String) (hasCb : Bool) (lo len : Nat) :
    expectedFires jobId hasCb lo (len + 1) =
      (if hasCb && lo % 5 == 0 then
          [⟨lo, (5 * (lo - 1)) / 60, (5 * (lo - 1)) % 60, pyTake jobId 8⟩]
        else []) ++ expectedFires jobId hasCb (lo + 1) len := by
  simp only [expectedFires, List.range'_succ, List.filter_cons]
  split
  · simp
  · simp

/-- Splitting off the last check of an `expectedFires` window. -/
theorem expectedFires_concat (jobId : String) (hasCb : Bool) (lo len : Nat) :
    expectedFires jobId hasCb lo (len + 1) =
      expectedFires jobId hasCb lo len ++
        (if hasCb && (lo + len) % 5 == 0 then
            [⟨lo + len, (5 * (lo + len - 1)) / 60, (5 * (lo + len - 1)) % 60, pyTake jobId 8⟩]
          else []) := by
  by_cases hcb : (hasCb && (lo + len) % 5 == 0) = true
  · simp [expectedFires, List.range'_1_concat, hcb]
  · simp [expectedFires, List.range'_1_concat, hcb]

/-- Running the loop across `d` consecutive in-flight checks (with
instantaneous reads) performs `d` iterations: it issues one status call per
check, accumulates the expected progress firings, and advances the clock by
5 per check. -/
theorem pollSteps_skip (jobId : String) (reads : Nat → Option Payload)
    (hasCb : Bool) (maxWait : Nat) (p : Nat → Payload) (st : Nat → String) :
    ∀ d c calls fires fuel,
      (∀ k, c < k → k ≤ c + d → reads k = some (p k) ∧ (p k).isEmpty = false ∧
          statusString (p k) = some (st k) ∧ pyUpper (st k) ≠ "COMPLETED" ∧
          pyUpper (st k) ∉ failureStatuses) →
      5 * (c + d) ≤ maxWait + 5 →
      pollSteps jobId reads zeroDur hasCb maxWait (d + fuel) c (5 * c) calls fires =
        pollSteps jobId reads zeroDur hasCb maxWait fuel (c + d) (5 * (c + d)) (calls + d)
          ((expectedFires jobId hasCb (c + 1) d).reverse ++ fires) := by
  intro d
  induction d with
  | zero => intro c calls fires fuel _ _; simp [expectedFires]
  | succ d ih =>
    intro c calls fires fuel hr hdl
    obtain ⟨hp, hemp, hs, hc, hf⟩ := hr (c + 1) (by omega) (by omega)
    have hstep : d + 1 + fuel = (d + fuel) + 1 := by omega
    rw [hstep]
    have hgt : ¬ (5 * c > maxWait) := by omega
    simp only [pollSteps, if_neg hgt, hp, hemp, Bool.false_eq_true, if_false, hs]
    rw [if_neg hc, if_neg hf, ite_self]
    have harith : 5 * c + zeroDur (c + 1) + 5 = 5 * (c + 1) := by
      simp only [zeroDur]
      omega
    rw [harith]
    rw [ih (c + 1) (calls + 1) _ fuel (fun k hk1 hk2 => hr k (by omega) (by omega)) (by omega)]
    have hc1 : c + 1 + d = c + (d + 1) := by omega
    have hc2 : calls + 1 + d = calls + (d + 1) := by omega
    rw [hc1, hc2]
    congr 1
    rw [expectedFires_succ]
    by_cases hcb : (hasCb && (c + 1) % 5 == 0) = true
    · simp [hcb]
    · simp [hcb]

/-- A full `wait_for_completion` run whose first `n - 1` checks are in-flight
and within the deadline reaches check `n` with `n - 1` calls made, elapsed
time `5 * (n - 1)`, the expected progress firings accumulated, and fuel to
spare. -/
theorem pollSteps_run_to_final (jobId : String) (reads : Nat → Option Payload)
    (hasCb : Bool) (p : Nat → Payload) (st : Nat → String) (n : Nat)
    (hn : 1 ≤ n)
    (hr : ∀ k, 1 ≤ k → k < n → reads k = some (p k) ∧ (p k).isEmpty = false ∧
        statusString (p k) = some (st k) ∧ pyUpper (st k) ≠ "COMPLETED" ∧
        pyUpper (st k) ∉ failureStatuses)
    (hdl : 5 * (n - 1) ≤ 180) :
    ∃ fuel, wait_for_completion jobId reads zeroDur hasCb 180
      = pollSteps jobId reads zeroDur hasCb 180 (fuel + 1) (n - 1) (5 * (n - 1)) (n - 1)
          ((expectedFires jobId hasCb 1 (n - 1)).reverse) := by
  refine ⟨37 - (n - 1), ?_⟩
  have e0 : wait_for_completion jobId reads zeroDur hasCb 180
      = pollSteps jobId reads zeroDur hasCb 180 38 0 (5 * 0) 0 [] := rfl
  have h38 : (38 : Nat) = (n - 1) + ((37 - (n - 1)) + 1) := by omega
  rw [e0, h38]
  rw [pollSteps_skip jobId reads hasCb 180 p st (n - 1) 0 0 [] ((37 - (n - 1)) + 1)
    (fun k hk1 hk2 => hr k (by omega) (by omega)) (by omega)]
  simp

/-! ## Claim theorems -/

/-- C1 (amended): if every status read returns an in-flight-bucket status,
`wait_for_completion` with `max_wait_time = 180` and the fixed 5-second poll
interval terminates with the timeout outcome (returning `None`) and issues at
most 37 status calls; and the elapsed-versus-deadline comparison runs at the
top of each iteration before the status call, so an iteration entered with
`elapsed > 180` returns at once without issuing a further call. The claimed
hard bound of 36 calls is off by one: the deadline test is strict
(`elapsed_time > max_wait_time`), so in the boundary run where the reads are
instantaneous the 37th call is still issued (see the counterexample). -/
theorem claim1_timeout_bound (jobId : String) (reads : Nat → Option Payload)
    (dur : Nat → Nat) (hasCb : Bool)
    (hin : ∀ k, 1 ≤ k → InFlightRead (reads k)) :
    (wait_for_completion jobId reads dur hasCb 180).exit = PollExit.timedOut ∧
    (wait_for_completion jobId reads dur hasCb 180).retVal = none ∧
    (wait_for_completion jobId reads dur hasCb 180).statusCalls ≤ 37 ∧
    (∀ f c e calls fires, e > 180 →
      pollSteps jobId reads dur hasCb 180 (f + 1) c e calls fires
        = ⟨PollExit.timedOut, none, calls, fires.reverse⟩) := by
  have e0 : wait_for_completion jobId reads dur hasCb 180
      = pollSteps jobId reads dur hasCb 180 38 0 0 0 [] := rfl
  have h := pollSteps_inflight_timeout jobId reads dur hasCb 180 hin 38 0 0 0 []
    (by omega) (by omega)
  refine ⟨by rw [e0]; exact h.1, by rw [e0]; exact h.2.1, by rw [e0]; omega, ?_⟩
  intro f c e calls fires hgt
  simp [pollSteps, hgt]

/-- Witness for `claim1_timeout_bound`: the always-`IN_PROGRESS` read
stream. -/
theorem claim1_timeout_bound_witness :
    (wait_for_completion "job-1" alwaysInProgress zeroDur true 180).exit = PollExit.timedOut ∧
    (wait_for_completion "job-1" alwaysInProgress zeroDur true 180).retVal = none ∧
    (wait_for_completion "job-1" alwaysInProgress zeroDur true 180).statusCalls ≤ 37 :=
  have h := claim1_timeout_bound "job-1" alwaysInProgress zeroDur true
    (fun k _ => ⟨[("status", JValue.s "IN_PROGRESS")], "IN_PROGRESS", rfl, rfl, rfl,
      by decide, by decide⟩)
  ⟨h.1, h.2.1, h.2.2.1⟩

/-- Counterexample to C1 as stated: with instantaneous status reads that
always report `IN_PROGRESS` under `maxWait = 180`, the elapsed time at the
top of the 37th iteration is exactly 180 (36 sleeps of 5 seconds), the strict
test `elapsed_time > max_wait_time` is still false, and a 37th status call is
issued before the run times out — the claim says no 37th call is made. -/
theorem claim1_counterexample :
    (wait_for_completion "job-1" alwaysInProgress zeroDur false 180).statusCalls = 37 ∧
    (wait_for_completion "job-1" alwaysInProgress zeroDur false 180).exit = PollExit.timedOut := by
  exact ⟨by decide, by decide⟩

/-- C2 (amended): on a target-image event, failure of the job submission ends
the conversation (`ConversationHandler.END`, the Idle state), but failure of
the target upload does not: the handler tells the user to try again and
returns `WAITING_FOR_TARGET_IMAGE`, keeping the session in AwaitingTarget
(while the `finally` block still clears the scratch state). -/
theorem claim2_upload_vs_submit_failure
    (ud : UserData) (submitRes : Option String) (pollRes pollRes2 : Option Payload)
    (src tgt : String) :
    received_target_image_and_swap ud none submitRes pollRes
      = (UserData.empty, ConvResult.waitingTarget, SwapMsg.uploadTargetFailed) ∧
    received_target_image_and_swap ⟨some src⟩ (some tgt) none pollRes2
      = (UserData.empty, ConvResult.ended, SwapMsg.submitFailed) :=
  ⟨rfl, rfl⟩

/-- Counterexample to C2 as stated: with a stored source URL, a target-image
event whose upload fails leaves the conversation in
`WAITING_FOR_TARGET_IMAGE` (line 306 of `src/bot.py`) — it does not
transition to `ConversationHandler.END` (Idle). -/
theorem claim2_counterexample :
    received_target_image_and_swap ⟨some "https://i.ibb.co/src.png"⟩ none (some "job-1") none
      = (UserData.empty, ConvResult.waitingTarget, SwapMsg.uploadTargetFailed) ∧
    ConvResult.waitingTarget ≠ ConvResult.ended :=
  ⟨rfl, by decide⟩

/-- C3 (amended): `cancel_command` clears the session scratch state and ends
the conversation, but it does not stop the poller: `wait_for_completion`
consults no cancellation state (its inputs are fixed when it starts), so a
run over an always-in-flight job keeps issuing status calls — 37 in all —
until the deadline, regardless of any cancel event. -/
theorem claim3_cancel_does_not_stop_poller :
    (∀ ud, cancel_command ud = (UserData.empty, ConvResult.ended)) ∧
    (wait_for_completion "job-1" alwaysInProgress zeroDur false 180).statusCalls = 37 ∧
    (wait_for_completion "job-1" alwaysInProgress zeroDur false 180).exit = PollExit.timedOut :=
  ⟨fun _ => rfl, by decide, by decide⟩

/-- Counterexample to C3 as stated: cancel a session after the poller's first
check of an always-in-flight job. Under the claimed design
(`specPollStatusCalls`: the job handle is invalidated by cancellation and
checked at the top of each iteration) exactly 1 status call is issued; the
code's loop issues 37 — 36 status calls occur after the cancellation, and
the claim says none may. -/
theorem claim3_counterexample :
    cancel_command ⟨some "https://i.ibb.co/src.png"⟩ = (UserData.empty, ConvResult.ended) ∧
    specPollStatusCalls (fun k => decide (k ≤ 1)) alwaysInProgress 180 38 0 0 0 = 1 ∧
    (wait_for_completion "job-1" alwaysInProgress zeroDur false 180).statusCalls = 37 :=
  ⟨rfl, by decide, by decide⟩

/-- C7 (amended): internally the loop finishes through exactly one of its
distinct exits, but the function's return value distinguishes only success:
it is a payload exactly when the exit is the `COMPLETED` branch and `None` on
failure and timeout alike, and the consumer maps `None` to the single
combined "failed or timed out" message, so failure and timeout are not
distinguishable by the consumer. -/
theorem claim7_only_success_distinguishable (jobId : String)
    (reads : Nat → Option Payload) (dur : Nat → Nat) (hasCb : Bool) (maxWait : Nat) :
    ((wait_for_completion jobId reads dur hasCb maxWait).exit = PollExit.completed ↔
      ((wait_for_completion jobId reads dur hasCb maxWait).retVal).isSome = true) ∧
    received_result_display none = SwapDisplay.failedOrTimedOut :=
  ⟨pollSteps_retVal_iff jobId reads dur hasCb maxWait (maxWait / 5 + 2) 0 0 0 [], rfl⟩

/-- Counterexample to C7 as stated: a timed-out run and a remote-failure run
both return `None` — the value the consumer receives is identical, so the
three outcomes are not mutually distinguishable to it. -/
theorem claim7_counterexample :
    (wait_for_completion "job-1" alwaysInProgress zeroDur false 180).exit = PollExit.timedOut ∧
    (wait_for_completion "job-1" alwaysFailed zeroDur false 180).exit = PollExit.jobFailed ∧
    (wait_for_completion "job-1" alwaysInProgress zeroDur false 180).retVal = none ∧
    (wait_for_completion "job-1" alwaysFailed zeroDur false 180).retVal = none :=
  ⟨by decide, by decide, rfl, rfl⟩

/-- C9: a session in AwaitingSource survives any sequence of failed source
uploads unchanged (the user is re-prompted each time, `user_data` untouched),
and the first successful upload stores the source reference and advances the
conversation to AwaitingTarget. -/
theorem claim9_source_upload_retries
    (ud : UserData) (evs : List SourceEvent) (url : String)
    (h : ∀ e ∈ evs, e = SourceEvent.photo none) :
    runSourceEvents ud evs = (ud, ConvResult.waitingSource) ∧
    runSourceEvents ud (evs ++ [SourceEvent.photo (some url)])
      = (⟨some url⟩, ConvResult.waitingTarget) := by
  have h1 : ∀ evs2, (∀ e ∈ evs2, e = SourceEvent.photo none) →
      runSourceEvents ud evs2 = (ud, ConvResult.waitingSource) := by
    intro evs2
    induction evs2 with
    | nil => intro _; rfl
    | cons e rest ih =>
      intro hh
      have he := hh e (List.mem_cons_self e rest)
      subst he
      have hstep : runSourceEvents ud (SourceEvent.photo none :: rest)
          = runSourceEvents ud rest := rfl
      rw [hstep]
      exact ih (fun e2 he2 => hh e2 (List.mem_cons_of_mem _ he2))
  refine ⟨h1 evs h, ?_⟩
  have key := h1 evs h
  unfold runSourceEvents at key ⊢
  rw [List.foldl_append, key]
  rfl

/-- Witness for `claim9_source_upload_retries`: two failed uploads followed
by a successful one. -/
theorem claim9_source_upload_retries_witness :
    runSourceEvents ⟨none⟩ [SourceEvent.photo none, SourceEvent.photo none]
      = (⟨none⟩, ConvResult.waitingSource) ∧
    runSourceEvents ⟨none⟩ ([SourceEvent.photo none, SourceEvent.photo none] ++
        [SourceEvent.photo (some "https://i.ibb.co/src.png")])
      = (⟨some "https://i.ibb.co/src.png"⟩, ConvResult.waitingTarget) :=
  claim9_source_upload_retries ⟨none⟩ _ _ (by
    intro e he
    simp only [List.mem_cons, List.not_mem_nil, or_false] at he
    rcases he with rfl | rfl <;> rfl)

/-- C10: every path through `received_target_image_and_swap` returns with the
scratch state cleared (the `finally` block of lines 420-422), including the
target-upload-failure path, which nevertheless keeps the conversation in
`WAITING_FOR_TARGET_IMAGE`; consequently a retried target image whose upload
succeeds finds no stored source URL, raises (`KeyError` at line 311), and is
ended by the catch-all error path. -/
theorem claim10_scratch_cleared_on_all_paths
    (ud : UserData) (up sub sub2 : Option String) (poll poll2 : Option Payload) (tgt : String) :
    (received_target_image_and_swap ud up sub poll).1 = UserData.empty ∧
    (received_target_image_and_swap ud none sub poll).2.1 = ConvResult.waitingTarget ∧
    received_target_image_and_swap (received_target_image_and_swap ud none sub poll).1
        (some tgt) sub2 poll2
      = (UserData.empty, ConvResult.ended, SwapMsg.unexpectedError) := by
  obtain ⟨srcOpt⟩ := ud
  refine ⟨?_, rfl, rfl⟩
  cases up <;> cases srcOpt <;> cases sub <;> rfl

/-- C8 (amended): for a completed payload with a truthy `output` field, a
string value is used directly when it starts with `http`; a dict value is
searched through the fixed priority list
`image_url, url, result_url, output_url` with the first present key winning;
and a truthy value that yields no URL produces the `malformed` diagnostic
carrying the 200-character-truncated raw dump (never a crash — the
classification is total). A falsy `output` value (the empty dict of the
counterexample, the empty string, `0`) is instead reported through the
combined "failed or timed out" message, which is where the claim as stated
fails. -/
theorem claim8_result_extraction (out1 out2 : JValue)
    (h1 : pyTruthy out1 = true) (h2 : extract_result_url out1 = none)
    (h3 : pyTruthy out2 = false) :
    received_result_display (some [("output", JValue.s "https://x/y.png")])
      = SwapDisplay.resolved (JValue.s "https://x/y.png") ∧
    received_result_display
        (some [("output", JValue.obj [("result_url", JValue.s "https://x/y.png")])])
      = SwapDisplay.resolved (JValue.s "https://x/y.png") ∧
    received_result_display (some [("output", JValue.obj [("nonsense", JValue.num 1)])])
      = SwapDisplay.malformed "\x7b\x22nonsense\x22: 1\x7d" ∧
    received_result_display (some [("output", JValue.obj
        [("result_url", JValue.s "https://b/x.png"), ("image_url", JValue.s "https://a/x.png")])])
      = SwapDisplay.resolved (JValue.s "https://a/x.png") ∧
    received_result_display (some [("output", out1)])
      = SwapDisplay.malformed (pyTake (renderJ out1) 200) ∧
    received_result_display (some [("output", out2)]) = SwapDisplay.failedOrTimedOut := by
  refine ⟨rfl, rfl, rfl, rfl, ?_, ?_⟩
  · simp [received_result_display, h1, h2]
  · simp [received_result_display, h3]

/-- Witness for `claim8_result_extraction`: a truthy non-URL `output` (the
number 7) yields the malformed diagnostic; a falsy `output` (the empty dict)
yields the combined failure message. -/
theorem claim8_result_extraction_witness :
    received_result_display (some [("output", JValue.num 7)])
      = SwapDisplay.malformed (pyTake (renderJ (JValue.num 7)) 200) ∧
    received_result_display (some [("output", JValue.obj [])])
      = SwapDisplay.failedOrTimedOut :=
  have h := claim8_result_extraction (JValue.num 7) (JValue.obj []) rfl rfl rfl
  ⟨h.2.2.2.2.1, h.2.2.2.2.2⟩

/-- Counterexample to C8 as stated: the completed payload
`{"status": "COMPLETED", "output": {}}` carries an `output` field that is an
object containing no known key, so the claim requires the `MalformedResult`
outcome; but `if result and result.get('output'):` (line 347) treats the
empty — falsy — dict like an absent result, and the handler shows the
combined "failed or timed out" message instead. -/
theorem claim8_counterexample :
    received_result_display
        (some [("status", JValue.s "COMPLETED"), ("output", JValue.obj [])])
      = SwapDisplay.failedOrTimedOut ∧
    (received_result_display
        (some [("status", JValue.s "COMPLETED"), ("output", JValue.obj [])])).isMalformed
      = false :=
  ⟨rfl, rfl⟩

/-- C5: status strings are normalised case-insensitively (`.upper()`), and
any status outside the recognised terminal buckets — unrecognised strings
such as `WEIRD_STATE` included — is treated as in-flight (logged, slept on,
retried) rather than aborting: if checks `1..n-1` all uppercase to
non-terminal statuses and check `n` uppercases to `COMPLETED` within the
180-second deadline, the run resolves to success with that check's payload
after exactly `n` status calls. -/
theorem claim5_unknown_status_is_inflight (jobId : String) (reads : Nat → Option Payload)
    (hasCb : Bool) (p : Nat → Payload) (st : Nat → String) (n : Nat)
    (hn : 1 ≤ n)
    (hr : ∀ k, 1 ≤ k → k ≤ n → reads k = some (p k) ∧ (p k).isEmpty = false ∧
        statusString (p k) = some (st k))
    (hin : ∀ k, 1 ≤ k → k < n → pyUpper (st k) ≠ "COMPLETED" ∧
        pyUpper (st k) ∉ failureStatuses)
    (hcomp : pyUpper (st n) = "COMPLETED")
    (hdl : 5 * (n - 1) ≤ 180) :
    (wait_for_completion jobId reads zeroDur hasCb 180).exit = PollExit.completed ∧
    (wait_for_completion jobId reads zeroDur hasCb 180).retVal = some (p n) ∧
    (wait_for_completion jobId reads zeroDur hasCb 180).statusCalls = n := by
  obtain ⟨fuel, hrun⟩ := pollSteps_run_to_final jobId reads hasCb p st n hn
    (fun k hk1 hk2 => ⟨(hr k hk1 (by omega)).1, (hr k hk1 (by omega)).2.1,
      (hr k hk1 (by omega)).2.2, (hin k hk1 hk2).1, (hin k hk1 hk2).2⟩) hdl
  rw [hrun]
  obtain ⟨hrn, hempn, hsn⟩ := hr n hn (le_refl n)
  have hk : n - 1 + 1 = n := by omega
  have hgt : ¬ (5 * (n - 1) > 180) := by omega
  refine ⟨?_, ?_, ?_⟩ <;>
    simp only [pollSteps, if_neg hgt, hk, hrn, hempn, Bool.false_eq_true, if_false, hsn,
      if_pos hcomp]

/-- Witness for `claim5_unknown_status_is_inflight`: two `WEIRD_STATE` reads
followed by a lowercase `completed` read at check 3. -/
theorem claim5_unknown_status_is_inflight_witness :
    (wait_for_completion "job-3" weirdReads zeroDur false 180).exit = PollExit.completed ∧
    (wait_for_completion "job-3" weirdReads zeroDur false 180).retVal = some (weirdPayload 3) ∧
    (wait_for_completion "job-3" weirdReads zeroDur false 180).statusCalls = 3 :=
  claim5_unknown_status_is_inflight "job-3" weirdReads false weirdPayload weirdStatus 3
    (by decide)
    (fun k hk1 hk2 => ⟨rfl, rfl, rfl⟩)
    (fun k hk1 hk2 => by
      have hne : k ≠ 3 := by omega
      constructor <;> simp [weirdStatus, hne] <;> decide)
    (by decide)
    (by decide)

/-- C6: an iteration whose status read yields no payload (`None`, or the
equally falsy empty dict) terminates the run immediately with the failure
outcome on that same iteration: exactly `n` status calls are made when the
`n`-th read fails, so a failed status read is never retried. -/
theorem claim6_failed_read_immediate (jobId : String) (reads : Nat → Option Payload)
    (hasCb : Bool) (p : Nat → Payload) (st : Nat → String) (n : Nat)
    (hn : 1 ≤ n)
    (hr : ∀ k, 1 ≤ k → k < n → reads k = some (p k) ∧ (p k).isEmpty = false ∧
        statusString (p k) = some (st k) ∧ pyUpper (st k) ≠ "COMPLETED" ∧
        pyUpper (st k) ∉ failureStatuses)
    (hfail : reads n = none ∨ reads n = some [])
    (hdl : 5 * (n - 1) ≤ 180) :
    (wait_for_completion jobId reads zeroDur hasCb 180).exit = PollExit.readFailed ∧
    (wait_for_completion jobId reads zeroDur hasCb 180).retVal = none ∧
    (wait_for_completion jobId reads zeroDur hasCb 180).statusCalls = n := by
  obtain ⟨fuel, hrun⟩ := pollSteps_run_to_final jobId reads hasCb p st n hn hr hdl
  rw [hrun]
  have hk : n - 1 + 1 = n := by omega
  have hgt : ¬ (5 * (n - 1) > 180) := by omega
  rcases hfail with hf | hf <;>
    refine ⟨?_, ?_, ?_⟩ <;>
      simp only [pollSteps, if_neg hgt, hk, hf, List.isEmpty_nil, if_true]

/-- Witness for `claim6_failed_read_immediate`: reads fail at check 3. -/
theorem claim6_failed_read_immediate_witness :
    (wait_for_completion "job-9" readsFailAt3 zeroDur false 180).exit = PollExit.readFailed ∧
    (wait_for_completion "job-9" readsFailAt3 zeroDur false 180).retVal = none ∧
    (wait_for_completion "job-9" readsFailAt3 zeroDur false 180).statusCalls = 3 :=
  claim6_failed_read_immediate "job-9" readsFailAt3 false
    (fun _ => [("status", JValue.s "IN_PROGRESS")]) (fun _ => "IN_PROGRESS") 3
    (by decide)
    (fun k hk1 hk2 => by
      have hne : k ≠ 3 := by omega
      refine ⟨?_, rfl, rfl, show pyUpper "IN_PROGRESS" ≠ "COMPLETED" by decide,
        show pyUpper "IN_PROGRESS" ∉ failureStatuses by decide⟩
      simp [readsFailAt3, hne])
    (Or.inl rfl)
    (by decide)

/-- C4 (amended): with a progress callback supplied, the callback fires on
exactly those status checks whose counter is a multiple of 5 among all the
checks whose read returned a payload — the terminal check included, because
the source fires the callback (lines 207-214) before testing the status
against the terminal buckets — and each firing carries the elapsed
minutes/seconds and the truncated job id: over a run whose checks `1..n-1`
are in-flight and whose check `n` is terminal, the firing list is exactly
`expectedFires jobId hasCb 1 n`, the multiples of 5 in `1..n`. -/
theorem claim4_progress_fires (jobId : String) (reads : Nat → Option Payload)
    (hasCb : Bool) (p : Nat → Payload) (st : Nat → String) (n : Nat)
    (hn : 1 ≤ n)
    (hr : ∀ k, 1 ≤ k → k ≤ n → reads k = some (p k) ∧ (p k).isEmpty = false ∧
        statusString (p k) = some (st k))
    (hin : ∀ k, 1 ≤ k → k < n → pyUpper (st k) ≠ "COMPLETED" ∧
        pyUpper (st k) ∉ failureStatuses)
    (hterm : pyUpper (st n) = "COMPLETED" ∨ pyUpper (st n) ∈ failureStatuses)
    (hdl : 5 * (n - 1) ≤ 180) :
    (wait_for_completion jobId reads zeroDur hasCb 180).progress
      = expectedFires jobId hasCb 1 n := by
  obtain ⟨fuel, hrun⟩ := pollSteps_run_to_final jobId reads hasCb p st n hn
    (fun k hk1 hk2 => ⟨(hr k hk1 (by omega)).1, (hr k hk1 (by omega)).2.1,
      (hr k hk1 (by omega)).2.2, (hin k hk1 hk2).1, (hin k hk1 hk2).2⟩) hdl
  rw [hrun]
  obtain ⟨hrn, hempn, hsn⟩ := hr n hn (le_refl n)
  have hk : n - 1 + 1 = n := by omega
  have hgt : ¬ (5 * (n - 1) > 180) := by omega
  have hsplit := expectedFires_concat jobId hasCb 1 (n - 1)
  have h1n : 1 + (n - 1) = n := by omega
  rw [h1n] at hsplit
  rw [hk] at hsplit
  rcases hterm with hc | hfm
  · simp only [pollSteps, if_neg hgt, hk, hrn, hempn, Bool.false_eq_true, if_false, hsn,
      if_pos hc]
    rw [hsplit]
    by_cases hcb : (hasCb && n % 5 == 0) = true
    · simp [hcb]
    · simp [hcb]
  · have hne : pyUpper (st n) ≠ "COMPLETED" := by
      intro hcon
      rw [hcon] at hfm
      exact absurd hfm (by decide)
    simp only [pollSteps, if_neg hgt, hk, hrn, hempn, Bool.false_eq_true, if_false, hsn,
      if_neg hne, if_pos hfm]
    rw [hsplit]
    by_cases hcb : (hasCb && n % 5 == 0) = true
    · simp [hcb]
    · simp [hcb]

/-- Witness for `claim4_progress_fires`: job completes at check 7, so the
callback fires exactly once, at check 5 while still in flight. -/
theorem claim4_progress_fires_witness :
    (wait_for_completion "job-7" seventhCompletedReads zeroDur true 180).progress
      = expectedFires "job-7" true 1 7 :=
  claim4_progress_fires "job-7" seventhCompletedReads true seventhCompleted seventhStatus 7
    (by decide)
    (fun k hk1 hk2 => ⟨rfl, rfl, rfl⟩)
    (fun k hk1 hk2 => by
      have hne : k ≠ 7 := by omega
      constructor <;> simp [seventhStatus, hne] <;> decide)
    (Or.inl (by decide))
    (by decide)

/-- Counterexample to C4 as stated: when check 5 itself returns the terminal
status `COMPLETED`, the callback still fires on that check (the source
invokes it before testing for terminal statuses), carrying 0 minutes and 20
seconds of elapsed time — the claim says the callback does not fire on a
check that returns a terminal status. -/
theorem claim4_counterexample :
    (wait_for_completion "job-7" fifthCompletedReads zeroDur true 180).exit
      = PollExit.completed ∧
    (wait_for_completion "job-7" fifthCompletedReads zeroDur true 180).progress
      = [⟨5, 0, 20, "job-7"⟩] :=
  ⟨by decide, by decide⟩

end Bot
